import Mathlib

/-!
Verification of the drishti-hci driver (src/src/app/hci/hci.cpp).

The file shallowly embeds `drishti_main`: the command-line validation phase
(lines 175-218), the pre-loop first-frame pull (lines 230-237), the
pipeline-setup phase (lines 239-302), the per-frame render callback
(lines 305-341), the run loop (line 343 via GLResource, headless variant
`while(render())` at line 101), and the sink teardown (lines 345-350).

External collaborators (VideoSourceCV, FaceFinderPainter, VideoSinkCV,
ogles_gpgpu, GLWindow) are modelled by oracles in `RunCfg` following their
consumed interfaces: the source yields a frame for indices below
`numFrames` and empty results afterwards; the detector's `getOutputPixels`
synchronously delivers pixels to its delegate; the sink's `good()` answer
at a given frame index is the oracle `sinkGoodAt`.

Observable actions of the run are recorded as a trace of `Event`s, in the
order the corresponding calls appear in the source.
-/

namespace DrishtiHci

/-- File-system oracle: whether the output directory test-write
(`drishti::cli::directory::exists(sOutput, ".drishti-hci")`, hci.cpp:181)
succeeds, and which paths `drishti::cli::file::exists` reports as
existing/readable. -/
structure FS where
  outputDirWritable : Bool
  fileExists : String → Bool

/-- The command-line values consumed by the validation phase of
`drishti_main` (hci.cpp:125-157). -/
structure Config where
  sInput : String
  sOutput : String
  sFaceDetector : String
  sFaceDetectorMean : String
  sFaceRegressor : String
  sEyeRegressor : String

/-- Emptiness of a C++ std::string, on its character sequence. -/
def strIsEmpty (s : String) : Bool := s.data.isEmpty

/-- The C++ condition `!sInput.find(".test")` (hci.cpp:198):
`std::string::find` yields the position of the first occurrence of
".test", and applying `!` to that size_t holds exactly when the position
is 0, i.e. when the path starts with ".test".  Stated on the character
sequence. -/
def strStartsWithTest (s : String) : Bool :=
  List.isPrefixOf ".test".data s.data

/-- `checkModel` (hci.cpp:380-394): reports failure (true) when the model
path is empty or the file does not exist. -/
def checkModel (fs : FS) (sModel : String) : Bool :=
  strIsEmpty sModel || !(fs.fileExists sModel)

/-- The pre-loop validation phase of `drishti_main` (hci.cpp:175-218).
Returns `some status` when the run aborts before the video stage, `none`
when it proceeds.  The input-existence condition embeds the C++
`!sInput.find(".test")` (hci.cpp:198): `std::string::find` yields the
position of the first occurrence, and `!pos` holds exactly when that
position is 0, i.e. when the input path starts with ".test". -/
def preLoopValidate (fs : FS) (cfg : Config) : Option Int :=
  if strIsEmpty cfg.sOutput then some 1
  else if !fs.outputDirWritable then some 1
  else if strIsEmpty cfg.sInput then some 1
  else if strStartsWithTest cfg.sInput && !(fs.fileExists cfg.sInput) then some 1
  else if checkModel fs cfg.sFaceDetector then some 1
  else if checkModel fs cfg.sFaceDetectorMean then some 1
  else if checkModel fs cfg.sFaceRegressor then some 1
  else if checkModel fs cfg.sEyeRegressor then some 1
  else none

/-- Observable actions of the run, one constructor per external call made
by `drishti_main` and its render lambda (hci.cpp:230-351). -/
inductive Event where
  /-- `(*video)(i)`: pull from the frame source at index i (hci.cpp:232, 307). -/
  | pull (idx : Nat)
  /-- `source({...})`: texture upload/swizzle (hci.cpp:316). -/
  | sourceUpload
  /-- `(*detector)({...})`: analysis stage (hci.cpp:318). -/
  | detectorProcess
  /-- `display->setOffset(...)` inside the render lambda (hci.cpp:324). -/
  | displaySetOffset
  /-- `display->setDisplayResolution(...)` inside the render lambda (hci.cpp:325). -/
  | displaySetDisplayResolution
  /-- `display->useTexture(texture1)` (hci.cpp:326). -/
  | displayUseTexture
  /-- `display->render(0)` (hci.cpp:327). -/
  | displayRender
  /-- `detector->getOutputPixels(delegate)` (hci.cpp:337). -/
  | extractPixels
  /-- `(*sink)(image)` inside the delegate (hci.cpp:335). -/
  | sinkWrite
  /-- `opengl.resize(frame.cols(), frame.rows())` (hci.cpp:239). -/
  | resize
  /-- `FaceFinderPainter::create(...)` (hci.cpp:269). -/
  | detectorCreate
  /-- `remove(filename.c_str())` on sOutput/movie.mov (hci.cpp:281). -/
  | removeMovie
  /-- `sink->setProperties(...)` (hci.cpp:290). -/
  | sinkSetProperties
  /-- `sink->begin()` (hci.cpp:291). -/
  | sinkBegin
  /-- `display->init(...)` (hci.cpp:300). -/
  | displayInit
  /-- `display->setOutputRenderOrientation(RenderOrientationFlipped)` (hci.cpp:301). -/
  | displaySetOrientation
  /-- `sink->end(callback)` (hci.cpp:348). -/
  | sinkEnd
  /-- the sink completion notification firing `s.signal()` (hci.cpp:348). -/
  | semSignal
  /-- `s.wait()` returning (hci.cpp:349). -/
  | semWait
deriving DecidableEq, Repr

/-- The parameters and oracles of one run past validation: how many frames
the source yields (pull(i) is nonempty exactly for i below `numFrames`,
per the consumed source contract), the -w and -m flags, whether
`VideoSinkCV::create` returns a non-null sink, whether sOutput/movie.mov
pre-exists, and the sink's `good()` answer when queried at frame index i. -/
structure RunCfg where
  numFrames : Nat
  doWindow : Bool
  doMovie : Bool
  sinkCreateOk : Bool
  movieFileExists : Bool
  sinkGoodAt : Nat → Bool

/-- The sink pointer is non-null exactly when -m was given and
`VideoSinkCV::create` succeeded (hci.cpp:284-288). -/
def RunCfg.hasSink (cfg : RunCfg) : Bool := cfg.doMovie && cfg.sinkCreateOk

/-- One invocation of the render lambda (hci.cpp:305-341), entered with the
shared counter equal to `counter`: it pulls at index `counter` (the counter
is post-incremented on every pull, successful or not); on an empty pull it
returns false at once; otherwise it uploads, runs the detector, drives the
display when one is attached, and extracts/writes pixels when a sink
exists and its `good()` holds. This returns the events of the invocation;
the boolean result of the lambda is `counter < cfg.numFrames`. -/
def renderEvents (cfg : RunCfg) (counter : Nat) : List Event :=
  if counter < cfg.numFrames then
    Event.pull counter :: Event.sourceUpload :: Event.detectorProcess ::
      ((if cfg.doWindow then
          [Event.displaySetOffset, Event.displaySetDisplayResolution,
           Event.displayUseTexture, Event.displayRender]
        else []) ++
       (if cfg.hasSink && cfg.sinkGoodAt counter then
          [Event.extractPixels, Event.sinkWrite]
        else []))
  else
    [Event.pull counter]

/-- The run loop `while(render())` (hci.cpp:101, 343; the windowed variant
drives the same lambda until it returns false, per the GLWindow contract):
events of all invocations, starting with the counter at `counter`. -/
def runLoopTrace (cfg : RunCfg) (counter : Nat) : List Event :=
  if counter < cfg.numFrames then
    renderEvents cfg counter ++ runLoopTrace cfg (counter + 1)
  else
    renderEvents cfg counter
termination_by cfg.numFrames - counter
decreasing_by omega

/-- The value of the shared counter after the run loop exits, starting from
`counter`: the lambda post-increments it on every pull, including the
terminal empty one (hci.cpp:307). -/
def runLoopFinal (cfg : RunCfg) (counter : Nat) : Nat :=
  if counter < cfg.numFrames then
    runLoopFinal cfg (counter + 1)
  else
    counter + 1
termination_by cfg.numFrames - counter
decreasing_by omega

/-- The pipeline-setup phase (hci.cpp:239-302), reached only when the
pre-loop pull returned a frame: resize the drawable, allocate the detector,
delete a pre-existing sOutput/movie.mov (unconditionally on its existence,
hci.cpp:278-282), create/configure/begin the sink when -m was given and
creation succeeded (hci.cpp:284-293), and create the display when -w was
given (hci.cpp:295-302). -/
def setupEvents (cfg : RunCfg) : List Event :=
  [Event.resize, Event.detectorCreate] ++
  (if cfg.movieFileExists then [Event.removeMovie] else []) ++
  (if cfg.doMovie && cfg.sinkCreateOk then [Event.sinkSetProperties, Event.sinkBegin] else []) ++
  (if cfg.doWindow then [Event.displayInit, Event.displaySetOrientation] else [])

/-- The teardown phase (hci.cpp:345-350): when a sink exists, construct a
semaphore at 0, call `end` with a callback that signals it, and wait.  The
completion notification fires exactly once (consumed sink contract), so
the recorded order is end, signal, wait-return. -/
def teardownEvents (cfg : RunCfg) : List Event :=
  if cfg.hasSink then [Event.sinkEnd, Event.semSignal, Event.semWait] else []

/-- The message logged when the pre-loop pull is empty (hci.cpp:235). -/
def noFramesMessage : String := "No frames available in video"

/-- The post-validation part of `drishti_main` (hci.cpp:230-351): pull the
first frame at index 0 without touching the counter (hci.cpp:231-232); if
it is empty, log and return -1 (hci.cpp:233-237); otherwise run setup, the
loop (the counter still at 0, so index 0 is pulled a second time), and
teardown, and return 0 (hci.cpp:351).  Yields (event trace, exit status). -/
def mainRun (cfg : RunCfg) : List Event × Int :=
  if 0 < cfg.numFrames then
    (Event.pull 0 :: (setupEvents cfg ++ runLoopTrace cfg 0 ++ teardownEvents cfg), 0)
  else
    ([Event.pull 0], -1)

/-- `drishti_main` after flag parsing (hci.cpp:175-351): validation, then
the run. An aborting validation produces an empty trace. -/
def drishti_main (fs : FS) (cfg : Config) (rcfg : RunCfg) : List Event × Int :=
  match preLoopValidate fs cfg with
  | some status => ([], status)
  | none => mainRun rcfg

/-- Modelled from the spec: `drishti::core::Semaphore` (drishti/core/Semaphore.h,
not under src/) is the counting wait primitive of section 4.6: constructed
with an initial count, `signal` increments it, and `wait` can return only
when the count is positive (consuming one unit); at count 0 it blocks. -/
structure Semaphore where
  count : Nat
deriving DecidableEq, Repr

/-- Modelled from the spec: signalling increments the count. -/
def Semaphore.signal (s : Semaphore) : Semaphore := { count := s.count + 1 }

/-- Modelled from the spec: a wait attempt blocks (none) at count 0 and
otherwise returns, consuming one unit. -/
def Semaphore.tryWait (s : Semaphore) : Option Semaphore :=
  if s.count = 0 then none else some { count := s.count - 1 }

/-- The semaphore constructed at teardown: `drishti::core::Semaphore s(0)`
(hci.cpp:347). -/
def semCreated : Semaphore := { count := 0 }

/-- The subsequence of frame-source query indices in a trace. -/
def pullIndices : List Event → List Nat
  | [] => []
  | Event.pull i :: rest => i :: pullIndices rest
  | _ :: rest => pullIndices rest

/-- Events that can be emitted by the render lambda. -/
def isLoopEvent : Event → Bool
  | Event.pull _ => true
  | Event.sourceUpload => true
  | Event.detectorProcess => true
  | Event.displaySetOffset => true
  | Event.displaySetDisplayResolution => true
  | Event.displayUseTexture => true
  | Event.displayRender => true
  | Event.extractPixels => true
  | Event.sinkWrite => true
  | _ => false

/-- File-system oracle under which every path exists and the output
directory is writable, except the path "missing.mov". -/
def fsMissing : FS :=
  { outputDirWritable := true, fileExists := fun s => s != "missing.mov" }

/-- A command line whose input path names a non-existing file while all
other arguments are valid. -/
def cfgMissing : Config :=
  { sInput := "missing.mov", sOutput := "out",
    sFaceDetector := "face.cpb", sFaceDetectorMean := "mean.cpb",
    sFaceRegressor := "reg.cpb", sEyeRegressor := "eye.cpb" }

/-- A source with no frames at all; no window, no sink. -/
def rcfgZero : RunCfg :=
  { numFrames := 0, doWindow := false, doMovie := false, sinkCreateOk := false,
    movieFileExists := false, sinkGoodAt := fun _ => false }

/-- A 1-frame source; no window, no sink. -/
def rcfgPlain1 : RunCfg :=
  { numFrames := 1, doWindow := false, doMovie := false, sinkCreateOk := false,
    movieFileExists := false, sinkGoodAt := fun _ => false }

/-- A 2-frame source; no window, no sink. -/
def rcfgPlain2 : RunCfg :=
  { numFrames := 2, doWindow := false, doMovie := false, sinkCreateOk := false,
    movieFileExists := false, sinkGoodAt := fun _ => false }

/-- A 10-frame source; no window, no sink (scenario A of the spec). -/
def rcfgPlain10 : RunCfg :=
  { numFrames := 10, doWindow := false, doMovie := false, sinkCreateOk := false,
    movieFileExists := false, sinkGoodAt := fun _ => false }

/-- A 1-frame source with a display window and no sink. -/
def rcfgWindow1 : RunCfg :=
  { numFrames := 1, doWindow := true, doMovie := false, sinkCreateOk := false,
    movieFileExists := false, sinkGoodAt := fun _ => false }

/-- A 2-frame source with a display window and a sink whose good() holds
only at frame 0 (it fails mid-stream). -/
def rcfgSink2 : RunCfg :=
  { numFrames := 2, doWindow := true, doMovie := true, sinkCreateOk := true,
    movieFileExists := false, sinkGoodAt := fun i => i == 0 }

/-- A 1-frame source with a sink that was created but whose good() never
holds (begin() failed; the sink never reached the Recording state). -/
def rcfgSinkDead1 : RunCfg :=
  { numFrames := 1, doWindow := false, doMovie := true, sinkCreateOk := true,
    movieFileExists := false, sinkGoodAt := fun _ => false }

/-- A 1-frame source with a pre-existing movie.mov in the output directory
and movie output NOT requested. -/
def rcfgStaleMovie1 : RunCfg :=
  { numFrames := 1, doWindow := false, doMovie := false, sinkCreateOk := false,
    movieFileExists := true, sinkGoodAt := fun _ => false }

/-!  Helper lemmas about the embedding. -/

theorem pullIndices_append (a b : List Event) :
    pullIndices (a ++ b) = pullIndices a ++ pullIndices b := by
  induction a with
  | nil => rfl
  | cons e rest ih => cases e <;> simp [pullIndices, ih]

theorem pullIndices_renderEvents (cfg : RunCfg) (c : Nat) :
    pullIndices (renderEvents cfg c) = [c] := by
  unfold renderEvents
  split
  · split <;> split <;> rfl
  · rfl

theorem runLoopTrace_pullIndices (cfg : RunCfg) (c : Nat) (h : c ≤ cfg.numFrames) :
    pullIndices (runLoopTrace cfg c) = List.range' c (cfg.numFrames + 1 - c) := by
  rw [runLoopTrace]
  split
  · rename_i hlt
    rw [pullIndices_append, pullIndices_renderEvents,
        runLoopTrace_pullIndices cfg (c + 1) hlt]
    have h2 : cfg.numFrames + 1 - c = (cfg.numFrames + 1 - (c + 1)) + 1 := by omega
    rw [h2, List.range'_succ]
    rfl
  · rename_i hge
    rw [pullIndices_renderEvents]
    have h2 : cfg.numFrames + 1 - c = 1 := by omega
    rw [h2]
    rw [List.range'_succ]
    rfl
termination_by cfg.numFrames - c
decreasing_by omega

theorem runLoopFinal_eq (cfg : RunCfg) (c : Nat) (h : c ≤ cfg.numFrames) :
    runLoopFinal cfg c = cfg.numFrames + 1 := by
  rw [runLoopFinal]
  split
  · rename_i hlt
    exact runLoopFinal_eq cfg (c + 1) hlt
  · rename_i hge
    omega
termination_by cfg.numFrames - c

theorem pullIndices_setupEvents (cfg : RunCfg) : pullIndices (setupEvents cfg) = [] := by
  unfold setupEvents
  split <;> split <;> split <;> rfl

theorem pullIndices_teardownEvents (cfg : RunCfg) : pullIndices (teardownEvents cfg) = [] := by
  unfold teardownEvents
  split <;> rfl

theorem mainRun_trace (cfg : RunCfg) (h : 0 < cfg.numFrames) :
    (mainRun cfg).1 =
      Event.pull 0 :: (setupEvents cfg ++ runLoopTrace cfg 0 ++ teardownEvents cfg) := by
  rw [mainRun, if_pos h]

theorem pullIndices_cons_pull (i : Nat) (l : List Event) :
    pullIndices (Event.pull i :: l) = i :: pullIndices l := rfl

theorem mainRun_pullIndices (cfg : RunCfg) (h : 0 < cfg.numFrames) :
    pullIndices (mainRun cfg).1 = 0 :: List.range (cfg.numFrames + 1) := by
  rw [mainRun_trace cfg h, pullIndices_cons_pull, pullIndices_append,
      pullIndices_append, pullIndices_setupEvents, pullIndices_teardownEvents,
      runLoopTrace_pullIndices cfg 0 (Nat.zero_le _), List.range_eq_range']
  simp

theorem renderEvents_all_loop (cfg : RunCfg) (c : Nat) :
    (renderEvents cfg c).all isLoopEvent = true := by
  unfold renderEvents
  split
  · split <;> split <;> rfl
  · rfl

theorem not_mem_renderEvents (cfg : RunCfg) (c : Nat) (e : Event)
    (h : isLoopEvent e = false) : e ∉ renderEvents cfg c := by
  intro hm
  have h2 := List.all_eq_true.mp (renderEvents_all_loop cfg c) e hm
  rw [h] at h2
  exact Bool.false_ne_true h2

theorem not_mem_runLoopTrace (cfg : RunCfg) (c : Nat) (e : Event)
    (h : isLoopEvent e = false) : e ∉ runLoopTrace cfg c := by
  rw [runLoopTrace]
  split
  · intro hm
    rcases List.mem_append.mp hm with h1 | h1
    · exact not_mem_renderEvents cfg c e h h1
    · exact not_mem_runLoopTrace cfg (c + 1) e h h1
  · exact not_mem_renderEvents cfg c e h
termination_by cfg.numFrames - c

theorem setupEvents_counts (cfg : RunCfg) :
    (setupEvents cfg).count Event.sinkEnd = 0 ∧
    (setupEvents cfg).count Event.semSignal = 0 ∧
    (setupEvents cfg).count Event.semWait = 0 ∧
    (setupEvents cfg).count Event.displaySetOrientation =
      (if cfg.doWindow then 1 else 0) ∧
    (Event.removeMovie ∈ setupEvents cfg ↔ cfg.movieFileExists = true) := by
  obtain ⟨n, dw, dm, sc, mf, g⟩ := cfg
  cases dw <;> cases dm <;> cases sc <;> cases mf <;>
    refine ⟨rfl, rfl, rfl, rfl, ?_⟩ <;> simp [setupEvents]

theorem teardownEvents_of_hasSink (cfg : RunCfg) (h : cfg.hasSink = true) :
    teardownEvents cfg = [Event.sinkEnd, Event.semSignal, Event.semWait] := by
  simp [teardownEvents, h]

theorem teardownEvents_count_orientation (cfg : RunCfg) :
    (teardownEvents cfg).count Event.displaySetOrientation = 0 := by
  unfold teardownEvents
  split <;> rfl

theorem preLoopValidate_status (fs : FS) (cfg : Config) (s : Int)
    (h : preLoopValidate fs cfg = some s) : s = 1 := by
  unfold preLoopValidate at h
  repeat' split at h
  all_goals simp_all

/-!  Claim theorems. -/

/-- C1: the spec requires a run whose input path names a missing file (and
is not in the ".test" special case) to abort with a non-zero status before
the render stage.  The code tests existence only when the path starts with
".test" (hci.cpp:198 applies `!` to the find position), so validation
passes for the ordinary missing input "missing.mov" and the run proceeds
into the video stage and pulls frame 0. -/
theorem C1_missing_input_not_rejected :
    fsMissing.fileExists cfgMissing.sInput = false ∧
    strStartsWithTest cfgMissing.sInput = false ∧
    preLoopValidate fsMissing cfgMissing = none ∧
    drishti_main fsMissing cfgMissing rcfgZero = ([Event.pull 0], -1) := by
  refine ⟨by decide, by decide, by decide, by decide⟩

/-- C2 counterexample: with a 2-frame source the shared counter after the
loop completes is 3, not 2 — it is also incremented by the terminal empty
pull. -/
theorem C2_counterexample_counter_is_three :
    runLoopFinal rcfgPlain2 0 = 3 ∧ rcfgPlain2.numFrames = 2 ∧
    runLoopFinal rcfgPlain2 0 ≠ rcfgPlain2.numFrames := by
  have h := runLoopFinal_eq rcfgPlain2 0 (Nat.zero_le _)
  refine ⟨by rw [h]; decide, rfl, by rw [h]; decide⟩

/-- C2 amended: for every source of N frames the render callback is
invoked exactly N+1 times, one pull per invocation at indices 0..N (the
first N pulls succeed, the last is the terminal empty pull), and the Frame
Counter after the loop completes equals N+1, having been incremented once
per pull — including the terminal empty one. -/
theorem C2_loop_invocations_and_counter (cfg : RunCfg) :
    (pullIndices (runLoopTrace cfg 0)).length = cfg.numFrames + 1 ∧
    pullIndices (runLoopTrace cfg 0) = List.range (cfg.numFrames + 1) ∧
    runLoopFinal cfg 0 = cfg.numFrames + 1 := by
  have hp := runLoopTrace_pullIndices cfg 0 (Nat.zero_le _)
  rw [Nat.sub_zero] at hp
  refine ⟨?_, ?_, runLoopFinal_eq cfg 0 (Nat.zero_le _)⟩
  · rw [hp]
    simp
  · rw [hp, List.range_eq_range']

/-- C3 counterexample: in scenario A (10 frames, no display, no sink) the
frame source is queried 12 times in total, not 11 — frame 0 is pulled once
before the loop for configuration and then again inside the loop. -/
theorem C3_counterexample_twelve_pulls :
    (pullIndices (mainRun rcfgPlain10).1).length = 12 ∧
    (pullIndices (mainRun rcfgPlain10).1).length ≠ 11 := by
  have h := mainRun_pullIndices rcfgPlain10 (by decide)
  rw [h]
  constructor <;> decide

/-- C3 amended: for a 10-frame source with no display window and no
recording sink the run queries the source 12 times (indices 0,0,1,...,10:
one pre-loop configuration pull of frame 0, ten successful loop pulls, one
terminal empty pull) and returns the success status 0. -/
theorem C3_scenario_a (cfg : RunCfg) (h10 : cfg.numFrames = 10)
    (_hw : cfg.doWindow = false) (_hm : cfg.doMovie = false) :
    (pullIndices (mainRun cfg).1).length = 12 ∧
    pullIndices (mainRun cfg).1 = 0 :: List.range 11 ∧
    (mainRun cfg).2 = 0 := by
  have h := mainRun_pullIndices cfg (by omega)
  rw [h10] at h
  refine ⟨by rw [h]; decide, by rw [h], ?_⟩
  rw [mainRun, if_pos (by omega : 0 < cfg.numFrames)]

/-- Witness for C3: the amended scenario at the concrete 10-frame run. -/
theorem C3_scenario_a_witness :
    rcfgPlain10.numFrames = 10 ∧
    ((pullIndices (mainRun rcfgPlain10).1).length = 12 ∧
     pullIndices (mainRun rcfgPlain10).1 = 0 :: List.range 11 ∧
     (mainRun rcfgPlain10).2 = 0) :=
  ⟨rfl, C3_scenario_a rcfgPlain10 rfl rfl rfl⟩

/-- C4 counterexample: with a 1-frame source, index 0 is queried twice
(once before the loop for sensor configuration and again inside the loop),
so the sequence of query indices over the full run is not strictly
increasing. -/
theorem C4_counterexample_duplicate_index :
    (pullIndices (mainRun rcfgPlain1).1).count 0 = 2 ∧
    ¬ List.Pairwise (fun a b => a < b) (pullIndices (mainRun rcfgPlain1).1) := by
  have h := mainRun_pullIndices rcfgPlain1 (by decide)
  rw [h]
  constructor <;> decide

/-- C4 amended: across one full run the query index sequence is 0 followed
by 0,1,...,N — the pre-loop configuration pull re-queries index 0; within
the render loop itself the indices are strictly increasing starting at 0. -/
theorem C4_pull_index_sequence (cfg : RunCfg) (h : 0 < cfg.numFrames) :
    pullIndices (mainRun cfg).1 = 0 :: List.range (cfg.numFrames + 1) ∧
    pullIndices (runLoopTrace cfg 0) = List.range (cfg.numFrames + 1) ∧
    List.Pairwise (fun a b => a < b) (pullIndices (runLoopTrace cfg 0)) := by
  have hp := runLoopTrace_pullIndices cfg 0 (Nat.zero_le _)
  rw [Nat.sub_zero] at hp
  refine ⟨mainRun_pullIndices cfg h, ?_, ?_⟩
  · rw [hp, List.range_eq_range']
  · rw [hp]
    exact List.pairwise_lt_range' 0 (cfg.numFrames + 1)

/-- Witness for C4: the amended index-sequence property at the concrete
1-frame run. -/
theorem C4_pull_index_sequence_witness :
    0 < rcfgPlain1.numFrames ∧
    (pullIndices (mainRun rcfgPlain1).1 = 0 :: List.range (rcfgPlain1.numFrames + 1) ∧
     pullIndices (runLoopTrace rcfgPlain1 0) = List.range (rcfgPlain1.numFrames + 1) ∧
     List.Pairwise (fun a b => a < b) (pullIndices (runLoopTrace rcfgPlain1 0))) :=
  ⟨by decide, C4_pull_index_sequence rcfgPlain1 (by decide)⟩

/-- C5: on every successful frame, pixel extraction (getOutputPixels) and
the sink write occur exactly when a sink object exists and its good()
query holds at that frame; the upload and analysis steps of that frame,
and the display step when a window is attached, execute regardless. -/
theorem C5_extract_write_guard (cfg : RunCfg) (c : Nat) (h : c < cfg.numFrames) :
    ((Event.extractPixels ∈ renderEvents cfg c) ↔ (cfg.hasSink && cfg.sinkGoodAt c) = true) ∧
    ((Event.sinkWrite ∈ renderEvents cfg c) ↔ (cfg.hasSink && cfg.sinkGoodAt c) = true) ∧
    Event.sourceUpload ∈ renderEvents cfg c ∧
    Event.detectorProcess ∈ renderEvents cfg c ∧
    (cfg.doWindow = true → Event.displayRender ∈ renderEvents cfg c) := by
  unfold renderEvents
  rw [if_pos h]
  cases hw : cfg.doWindow <;> cases hs : cfg.hasSink && cfg.sinkGoodAt c <;>
    simp [hw, hs]

/-- Witness for C5: the guard property at frame 0 of the concrete run with
a window and a sink whose good() holds at frame 0. -/
theorem C5_extract_write_guard_witness :
    0 < rcfgSink2.numFrames ∧
    (((Event.extractPixels ∈ renderEvents rcfgSink2 0) ↔
        (rcfgSink2.hasSink && rcfgSink2.sinkGoodAt 0) = true) ∧
     ((Event.sinkWrite ∈ renderEvents rcfgSink2 0) ↔
        (rcfgSink2.hasSink && rcfgSink2.sinkGoodAt 0) = true) ∧
     Event.sourceUpload ∈ renderEvents rcfgSink2 0 ∧
     Event.detectorProcess ∈ renderEvents rcfgSink2 0 ∧
     (rcfgSink2.doWindow = true → Event.displayRender ∈ renderEvents rcfgSink2 0)) :=
  ⟨by decide, C5_extract_write_guard rcfgSink2 0 (by decide)⟩

/-- C6: whenever a sink exists at teardown, end is called exactly once
with a completion callback, the main thread waits on a semaphore
constructed at count 0 which the completion callback signals exactly once,
and the run returns only after the wait is released: the trace ends with
end, signal, wait-return, and the semaphore blocks at 0 and is released by
one signal. -/
theorem C6_sink_finalization (cfg : RunCfg) (h1 : 0 < cfg.numFrames)
    (h2 : cfg.hasSink = true) :
    (mainRun cfg).1.count Event.sinkEnd = 1 ∧
    (mainRun cfg).1.count Event.semSignal = 1 ∧
    (mainRun cfg).1.count Event.semWait = 1 ∧
    (∃ pre, (mainRun cfg).1 = pre ++ [Event.sinkEnd, Event.semSignal, Event.semWait]) ∧
    semCreated.count = 0 ∧
    Semaphore.tryWait semCreated = none ∧
    Semaphore.tryWait (Semaphore.signal semCreated) = some { count := 0 } := by
  have htr := mainRun_trace cfg h1
  have htd := teardownEvents_of_hasSink cfg h2
  have hset := setupEvents_counts cfg
  rw [htd] at htr
  refine ⟨?_, ?_, ?_, ?_, rfl, rfl, rfl⟩
  · rw [htr, List.count_cons, List.count_append, List.count_append,
        List.count_eq_zero_of_not_mem (not_mem_runLoopTrace cfg 0 Event.sinkEnd rfl),
        hset.1]
    decide
  · rw [htr, List.count_cons, List.count_append, List.count_append,
        List.count_eq_zero_of_not_mem (not_mem_runLoopTrace cfg 0 Event.semSignal rfl),
        hset.2.1]
    decide
  · rw [htr, List.count_cons, List.count_append, List.count_append,
        List.count_eq_zero_of_not_mem (not_mem_runLoopTrace cfg 0 Event.semWait rfl),
        hset.2.2.1]
    decide
  · exact ⟨Event.pull 0 :: (setupEvents cfg ++ runLoopTrace cfg 0),
      by rw [htr]; simp⟩

/-- Witness for C6: the finalization property at the concrete 2-frame run
with a created sink. -/
theorem C6_sink_finalization_witness :
    0 < rcfgSink2.numFrames ∧ rcfgSink2.hasSink = true ∧
    ((mainRun rcfgSink2).1.count Event.sinkEnd = 1 ∧
     (mainRun rcfgSink2).1.count Event.semSignal = 1 ∧
     (mainRun rcfgSink2).1.count Event.semWait = 1 ∧
     (∃ pre, (mainRun rcfgSink2).1 =
        pre ++ [Event.sinkEnd, Event.semSignal, Event.semWait]) ∧
     semCreated.count = 0 ∧
     Semaphore.tryWait semCreated = none ∧
     Semaphore.tryWait (Semaphore.signal semCreated) = some { count := 0 }) :=
  ⟨by decide, by decide, C6_sink_finalization rcfgSink2 (by decide) (by decide)⟩

/-- C7: with a 0-frame source the run performs exactly the single empty
pull, reports the "No frames available in video" message (which begins
"no frames available" once lower-cased), returns -1 — non-zero and
distinct from the configuration-error status, which is always 1 — and
never resizes the drawable nor creates the detector or display. -/
theorem C7_zero_frame_source (cfg : RunCfg) (h : cfg.numFrames = 0) :
    (mainRun cfg).1 = [Event.pull 0] ∧
    (mainRun cfg).2 = -1 ∧
    (mainRun cfg).2 ≠ 0 ∧
    (mainRun cfg).2 ≠ 1 ∧
    (∀ fs c s, preLoopValidate fs c = some s → s = 1) ∧
    List.isPrefixOf "no frames available".data (noFramesMessage.data.map Char.toLower) = true ∧
    Event.resize ∉ (mainRun cfg).1 ∧
    Event.detectorCreate ∉ (mainRun cfg).1 ∧
    Event.displayInit ∉ (mainRun cfg).1 := by
  have hm : mainRun cfg = ([Event.pull 0], -1) := by
    rw [mainRun, if_neg (by omega : ¬ 0 < cfg.numFrames)]
  rw [hm]
  exact ⟨rfl, rfl, by decide, by decide, preLoopValidate_status, by decide,
    by decide, by decide, by decide⟩

/-- Witness for C7: the empty-source behavior at the concrete 0-frame run. -/
theorem C7_zero_frame_source_witness :
    rcfgZero.numFrames = 0 ∧
    ((mainRun rcfgZero).1 = [Event.pull 0] ∧
     (mainRun rcfgZero).2 = -1 ∧
     (mainRun rcfgZero).2 ≠ 0 ∧
     (mainRun rcfgZero).2 ≠ 1 ∧
     (∀ fs c s, preLoopValidate fs c = some s → s = 1) ∧
     List.isPrefixOf "no frames available".data (noFramesMessage.data.map Char.toLower) = true ∧
     Event.resize ∉ (mainRun rcfgZero).1 ∧
     Event.detectorCreate ∉ (mainRun rcfgZero).1 ∧
     Event.displayInit ∉ (mainRun rcfgZero).1) :=
  ⟨rfl, C7_zero_frame_source rcfgZero rfl⟩

/-- C8 counterexample: with a display window attached, the offset and
display-resolution transform parameters are re-set inside the per-frame
callback from the window state (hci.cpp:324-325), refuting the claim that
no transform parameter is re-set during a per-frame invocation. -/
theorem C8_counterexample_per_frame_transform :
    Event.displaySetOffset ∈ renderEvents rcfgWindow1 0 ∧
    Event.displaySetDisplayResolution ∈ renderEvents rcfgWindow1 0 := by
  decide

/-- C8 amended: only the orientation-flip parameter is supplied once, at
display construction (hci.cpp:301, exactly once in the whole run); the
offset and display-resolution parameters are re-set from the window state
on every successful per-frame invocation. -/
theorem C8_transform_parameters (cfg : RunCfg) (c : Nat)
    (hw : cfg.doWindow = true) (h : c < cfg.numFrames) :
    Event.displaySetOffset ∈ renderEvents cfg c ∧
    Event.displaySetDisplayResolution ∈ renderEvents cfg c ∧
    (mainRun cfg).1.count Event.displaySetOrientation = 1 := by
  refine ⟨?_, ?_, ?_⟩
  · unfold renderEvents
    rw [if_pos h]
    simp [hw]
  · unfold renderEvents
    rw [if_pos h]
    simp [hw]
  · have htr := mainRun_trace cfg (by omega)
    rw [htr, List.count_cons, List.count_append, List.count_append,
        List.count_eq_zero_of_not_mem
          (not_mem_runLoopTrace cfg 0 Event.displaySetOrientation rfl),
        (setupEvents_counts cfg).2.2.2.1, teardownEvents_count_orientation, hw]
    decide

/-- Witness for C8: the amended transform property at frame 0 of the
concrete windowed 1-frame run. -/
theorem C8_transform_parameters_witness :
    rcfgWindow1.doWindow = true ∧ 0 < rcfgWindow1.numFrames ∧
    (Event.displaySetOffset ∈ renderEvents rcfgWindow1 0 ∧
     Event.displaySetDisplayResolution ∈ renderEvents rcfgWindow1 0 ∧
     (mainRun rcfgWindow1).1.count Event.displaySetOrientation = 1) :=
  ⟨by decide, by decide, C8_transform_parameters rcfgWindow1 0 (by decide) (by decide)⟩

/-- C9: once sink creation succeeded, the teardown end call and the
blocking wait are reached on every run — the theorem holds for every
good() oracle, including one that never returns true (a sink whose begin
failed and that never reached the Recording state). -/
theorem C9_teardown_unconditional (cfg : RunCfg) (h1 : 0 < cfg.numFrames)
    (hm : cfg.doMovie = true) (hc : cfg.sinkCreateOk = true) :
    Event.sinkEnd ∈ (mainRun cfg).1 ∧ Event.semWait ∈ (mainRun cfg).1 := by
  have h2 : cfg.hasSink = true := by simp [RunCfg.hasSink, hm, hc]
  have htr := mainRun_trace cfg h1
  rw [teardownEvents_of_hasSink cfg h2] at htr
  rw [htr]
  constructor <;> simp

/-- Witness for C9: teardown still runs for the concrete created sink
whose good() is never true. -/
theorem C9_teardown_unconditional_witness :
    0 < rcfgSinkDead1.numFrames ∧ rcfgSinkDead1.doMovie = true ∧
    rcfgSinkDead1.sinkCreateOk = true ∧
    rcfgSinkDead1.sinkGoodAt 0 = false ∧
    (Event.sinkEnd ∈ (mainRun rcfgSinkDead1).1 ∧
     Event.semWait ∈ (mainRun rcfgSinkDead1).1) :=
  ⟨by decide, by decide, by decide, by decide,
   C9_teardown_unconditional rcfgSinkDead1 (by decide) (by decide) (by decide)⟩

/-- C10: on every run that reaches the pipeline-setup phase, the removal
of a pre-existing movie.mov appears in the trace exactly when the file
pre-exists — for every configuration, including doMovie = false: the
deletion (hci.cpp:278-282) is outside the doMovie guard. -/
theorem C10_stale_movie_removed (cfg : RunCfg) (h : 0 < cfg.numFrames) :
    (Event.removeMovie ∈ (mainRun cfg).1 ↔ cfg.movieFileExists = true) := by
  have htr := mainRun_trace cfg h
  have hset := (setupEvents_counts cfg).2.2.2.2
  rw [htr]
  constructor
  · intro hmem
    rcases List.mem_cons.mp hmem with he | he
    · exact absurd he (by decide)
    · rcases List.mem_append.mp he with h1 | h1
      · rcases List.mem_append.mp h1 with h2 | h2
        · exact hset.mp h2
        · exact absurd h2 (not_mem_runLoopTrace cfg 0 Event.removeMovie rfl)
      · exfalso
        revert h1
        unfold teardownEvents
        split
        · decide
        · decide
  · intro hmf
    exact List.mem_cons_of_mem _
      (List.mem_append_left _ (List.mem_append_left _ (hset.mpr hmf)))

/-- Witness for C10: with movie output NOT requested and a stale movie.mov
present, the removal is in the trace. -/
theorem C10_stale_movie_removed_witness :
    0 < rcfgStaleMovie1.numFrames ∧ rcfgStaleMovie1.doMovie = false ∧
    (Event.removeMovie ∈ (mainRun rcfgStaleMovie1).1 ↔
      rcfgStaleMovie1.movieFileExists = true) :=
  ⟨by decide, by decide, C10_stale_movie_removed rcfgStaleMovie1 (by decide)⟩

end DrishtiHci
